import Mathlib

/-!
Verification of the metered reverse-proxy settlement pipeline
(`src/index.ts`, `handleApiProxyRequest` and friends) against its
natural-language specification.

The TypeScript source is shallowly embedded: each relevant function of the
program becomes an executable Lean definition over explicit state, and the
external world (registry store, upstream builder API, payment facilitator,
metrics sink, request-queue store) is an explicit environment record whose
fields describe the outcome each external call would produce.  Machine
integers of the source (fees, counters) are strings over decimal `Nat`s,
exactly as the source stores them.
-/

namespace IaoProxy

/-- Model of JavaScript `String.toLowerCase` restricted to the ASCII range,
which is the only range the program feeds it (slugs are validated to
`[a-z0-9-]`, addresses are `0x`-hex).  `Char.toLower` lowers exactly the
basic latin letters `A`-`Z`, matching JS on ASCII input. -/
def jsToLower (s : String) : String :=
  List.asString (s.data.map Char.toLower)

theorem char_toNat_ofNat_of_valid {n : Nat} (h : n < 55296) :
    (Char.ofNat n).toNat = n := by
  have hv : n.isValidChar := Or.inl h
  simp only [Char.ofNat, dif_pos hv]
  rfl

theorem char_toLower_idem (c : Char) :
    Char.toLower (Char.toLower c) = Char.toLower c := by
  unfold Char.toLower
  by_cases h : c.toNat ≥ 65 ∧ c.toNat ≤ 90
  · rw [if_pos h]
    have h2 : (Char.ofNat (c.toNat + 32)).toNat = c.toNat + 32 :=
      char_toNat_ofNat_of_valid (by omega)
    rw [if_neg]
    rw [h2]
    omega
  · rw [if_neg h, if_neg h]

theorem jsToLower_idem (s : String) : jsToLower (jsToLower s) = jsToLower s := by
  unfold jsToLower
  rw [show (List.asString (s.data.map Char.toLower)).data
        = s.data.map Char.toLower from rfl]
  rw [List.map_map]
  congr 1
  apply List.map_congr_left
  intro c _
  exact char_toLower_idem c

/-! Decimal rendering facts about `Nat.repr`, needed to show that the
string comparison `authorization.value !== expectedAmount` distinguishes
the decimal renderings of `fee - 1`, `fee`, `fee + 1`. -/

theorem toDigitsCore_getLast? (b : Nat) (fuel : Nat) :
    ∀ (n : Nat) (c : Char) (ds : List Char),
      (Nat.toDigitsCore b fuel n (c :: ds)).getLast? = (c :: ds).getLast? := by
  induction fuel with
  | zero => intro n c ds; rfl
  | succ fuel ih =>
    intro n c ds
    show (if n / b = 0 then Nat.digitChar (n % b) :: c :: ds
          else Nat.toDigitsCore b fuel (n / b)
            (Nat.digitChar (n % b) :: c :: ds)).getLast? = (c :: ds).getLast?
    by_cases h : n / b = 0
    · rw [if_pos h]
      exact List.getLast?_cons_cons
    · rw [if_neg h]
      rw [ih (n / b) (Nat.digitChar (n % b)) (c :: ds)]
      exact List.getLast?_cons_cons

theorem toDigits_getLast? (n : Nat) :
    (Nat.toDigits 10 n).getLast? = some (Nat.digitChar (n % 10)) := by
  show (Nat.toDigitsCore 10 (n + 1) n []).getLast?
    = some (Nat.digitChar (n % 10))
  show (if n / 10 = 0 then [Nat.digitChar (n % 10)]
        else Nat.toDigitsCore 10 n (n / 10) [Nat.digitChar (n % 10)]).getLast?
    = some (Nat.digitChar (n % 10))
  by_cases h : n / 10 = 0
  · rw [if_pos h]; rfl
  · rw [if_neg h]
    rw [toDigitsCore_getLast? 10 n (n / 10) (Nat.digitChar (n % 10)) []]
    rfl

theorem digitChar_inj_lt10 (a b : Nat) (ha : a < 10) (hb : b < 10)
    (h : Nat.digitChar a = Nat.digitChar b) : a = b := by
  interval_cases a <;> interval_cases b <;> revert h <;> decide

theorem nat_repr_succ_ne (f : Nat) : Nat.repr (f + 1) ≠ Nat.repr f := by
  intro h
  have h2 : Nat.toDigits 10 (f + 1) = Nat.toDigits 10 f :=
    congrArg String.data h
  have h3 := congrArg List.getLast? h2
  rw [toDigits_getLast?, toDigits_getLast?] at h3
  have h4 : (f + 1) % 10 = f % 10 :=
    digitChar_inj_lt10 _ _ (Nat.mod_lt _ (by omega)) (Nat.mod_lt _ (by omega))
      (Option.some.inj h3)
  omega

theorem nat_repr_pred_ne (f : Nat) (hf : 1 ≤ f) :
    Nat.repr (f - 1) ≠ Nat.repr f := by
  intro h
  have h2 : Nat.repr (f - 1 + 1) ≠ Nat.repr (f - 1) := nat_repr_succ_ne (f - 1)
  rw [Nat.sub_add_cancel hf] at h2
  exact h2 h.symm

/-! Data model of the registry (`IAOTokenEntry`, `ApiEntry` from
`src/index.ts`). -/

/-- One registered API endpoint of a server (source interface `ApiEntry`).
The source additionally carries `description`/`createdAt`, which no claim
touches. -/
structure ApiEntry where
  index : Nat
  slug : String
  name : String
  apiUrl : String
  fee : String
deriving Repr, DecidableEq

/-- One registered server (source interface `IAOTokenEntry`). `id` is the
token address; `subscriptionCount` is kept in the separate DB projection
(`tokenDBCount` of the environment) where the pipeline reads it. -/
structure IAOTokenEntry where
  id : String
  slug : String
  builder : String
  name : String
  symbol : String
  paymentToken : String
  apis : List ApiEntry
deriving Repr, DecidableEq

/-- Source `dynamoDBService.getItemBySlug`: a scan filtering on
`slug = :slug` where the queried value is lowercased (`slug.toLowerCase()`
at the call site inside the service). -/
def getItemBySlug (registry : List IAOTokenEntry) (slug : String) :
    Option IAOTokenEntry :=
  registry.find? (fun t => t.slug == jsToLower slug)

/-- Source `getIAOTokenEntryBySlug`: returns `null` when the DynamoDB
service is not configured, otherwise delegates to `getItemBySlug`. -/
def getIAOTokenEntryBySlug (dynamoConfigured : Bool)
    (registry : List IAOTokenEntry) (serverSlug : String) :
    Option IAOTokenEntry :=
  if dynamoConfigured then getItemBySlug registry serverSlug else none

/-- Source `getApiFromTokenBySlug`: `null` on an empty `apis` array, else
`find` comparing the stored slug with `apiSlug.toLowerCase()`. -/
def getApiFromTokenBySlug (token : IAOTokenEntry) (apiSlug : String) :
    Option ApiEntry :=
  if token.apis.isEmpty then none
  else token.apis.find? (fun api => api.slug == jsToLower apiSlug)

/-! Payment authorization decoding and structural verification
(`verifyPaymentAuthorization`, `extractUserAddressFromPayment`). -/

/-- Decoded EIP-3009 authorization body (`paymentProof.payload.authorization`
in the source).  Source JSON fields `to` and `from` are rendered `toAddr`
and `fromAddr` (`from` is a Lean keyword); `validAfter`/`validBefore` model
the `parseInt` results. -/
structure Authorization where
  toAddr : String
  value : String
  validAfter : Int
  validBefore : Int
  fromAddr : String
deriving Repr, DecidableEq

/-- Decoded payment proof (`paymentProof.payload` in the source): an
optional authorization object and an optional signature string. -/
structure PaymentProof where
  authorization : Option Authorization
  signature : Option String
deriving Repr, DecidableEq

inductive VerifyResult where
  | valid (userAddress : String)
  | invalid (error : String)
deriving Repr, DecidableEq

/-- Source `verifyPaymentAuthorization`.  `decoded` is the result of the
base64 + JSON decode of the payment header (`none` models a decode that
throws, which the source catches and turns into an invalid result).  The
structural checks run in source order, short-circuiting: presence (with JS
truthiness, so an empty signature string counts as missing), recipient
(case-insensitive), amount (exact string equality), then the time window
with `now < validAfter` checked before `now > validBefore`. -/
def verifyPaymentAuthorization (decoded : Option PaymentProof)
    (expectedPayTo expectedAmount : String) (now : Int) : VerifyResult :=
  match decoded with
  | none => VerifyResult.invalid "Failed to verify payment authorization"
  | some proof =>
    match proof.authorization, proof.signature with
    | some auth, some sig =>
      if sig = "" then
        VerifyResult.invalid "Missing authorization or signature"
      else if jsToLower auth.toAddr ≠ jsToLower expectedPayTo then
        VerifyResult.invalid ("Payment recipient mismatch: expected "
          ++ expectedPayTo ++ ", got " ++ auth.toAddr)
      else if auth.value ≠ expectedAmount then
        VerifyResult.invalid ("Payment amount mismatch: expected "
          ++ expectedAmount ++ ", got " ++ auth.value)
      else if now < auth.validAfter then
        VerifyResult.invalid "Payment authorization not yet valid"
      else if now > auth.validBefore then
        VerifyResult.invalid "Payment authorization expired"
      else
        VerifyResult.valid (jsToLower auth.fromAddr)
    | _, _ => VerifyResult.invalid "Missing authorization or signature"

/-- Source `extractUserAddressFromPayment`: re-decodes the payment header
and returns `authorization.from.toLowerCase()` when the `from` field is
truthy (an empty string is falsy in JS), `null` otherwise. -/
def extractUserAddressFromPayment (decoded : Option PaymentProof) :
    Option String :=
  match decoded with
  | none => none
  | some proof =>
    match proof.authorization with
    | some auth =>
      if auth.fromAddr = "" then none else some (jsToLower auth.fromAddr)
    | none => none

/-! The proxy pipeline (`handleApiProxyRequest`).  External effects are
modelled by an environment record fixing the outcome of each external call
(builder fetch, settlement, metrics sink, queue store) and by an effect
trace accumulating the observable side effects the handler performs. -/

/-- Outcome of the builder fetch: an abort/timeout, another fetch or
forwarding error, or a completed HTTP response with a status and a parsed
body (the body-parsing fallbacks all end in some parsed value, carried
opaquely). -/
inductive BuilderOutcome where
  | timeout
  | networkError
  | response (status : Nat) (parsedData : String)
deriving Repr, DecidableEq

/-- Outcome of `executePaymentTransfer`: a settled transfer (source result
`success:true` with optional `txHash`), a non-200 facilitator result
(`success:false` with an error message), or an exception escaping the
settlement block (caught by the source at the `paymentError` handler). -/
inductive SettleOutcome where
  | ok (txHash : Option String)
  | fail (err : String)
  | thrown (msg : String)
deriving Repr, DecidableEq

def SettleOutcome.isOk : SettleOutcome → Bool
  | SettleOutcome.ok _ => true
  | _ => false

def BuilderOutcome.isSuccess : BuilderOutcome → Bool
  | BuilderOutcome.response status _ => 200 ≤ status && status < 300
  | _ => false

/-- Where, if anywhere, the usage-recording step (STEP 4 of the source)
throws: reading the token row, creating the queue entry, or writing the
incremented counter.  Each throw is caught by the source and swallowed. -/
inductive RecordStep where
  | ok
  | getItemThrows
  | createThrows
  | putThrows
deriving Repr, DecidableEq

/-- The environment of one request: configuration flags and the outcome
every external collaborator would produce if called. `paymentHeader` is the
first truthy value of `payment-signature` / `x-payment`; `decodedPayment`
is the base64+JSON decode of that header (used by both the verifier and
the user-address extractor); `tokenDBCount` is the `subscriptionCount` the
queue step would read back for the token row (`none` when the row is
missing). -/
structure ProxyEnv where
  thirdwebClient : Bool
  facilitatorAddress : String
  paymentHeader : Option String
  decodedPayment : Option PaymentProof
  now : Int
  builder : BuilderOutcome
  settle : SettleOutcome
  metricsConfigured : Bool
  userRequestConfigured : Bool
  dynamoConfigured : Bool
  tokenDBCount : Option Nat
  recordStep : RecordStep
deriving Repr, DecidableEq

/-- One `accepts` entry of a 402 body. -/
structure AcceptsEntry where
  scheme : String
  network : String
  payTo : String
  asset : String
  maxAmountRequired : String
deriving Repr, DecidableEq

/-- The `payment` object of the success body. -/
structure PaymentInfo where
  status : String
  tokenAddress : String
  paymentToken : String
  charged : Bool
deriving Repr, DecidableEq

/-- The `proxy` object of the success body. -/
structure ProxyInfo where
  serverSlug : String
  apiSlug : String
  apiName : String
deriving Repr, DecidableEq

/-- The JSON response body: every field any terminal response of the
handler can carry, `none` when the field is absent from that response. -/
structure ResponseBody where
  error : Option String := none
  message : Option String := none
  availableApis : Option (List (String × String)) := none
  x402Version : Option Nat := none
  accepts : Option (List AcceptsEntry) := none
  finalRecipient : Option String := none
  serverSlug : Option String := none
  apiSlug : Option String := none
  apiName : Option String := none
  builderStatus : Option Nat := none
  data : Option String := none
  paymentError : Option String := none
  charged : Option Bool := none
  payment : Option PaymentInfo := none
  proxy : Option ProxyInfo := none
deriving Repr, DecidableEq

structure HttpResponse where
  status : Nat
  body : ResponseBody
deriving Repr, DecidableEq

/-- One queue row written by `createRequestQueueEntry`:
`globalRequestNumber` is the sequence number the pipeline hands it. -/
structure QueueEntry where
  iaoToken : String
  fromAddr : String
  globalRequestNumber : Nat
  fee : String
deriving Repr, DecidableEq

/-- One `recordApiCall` invocation on the metrics sink (the CallOutcome). -/
structure MetricsRecord where
  tokenAddress : String
  apiSlug : String
  fee : String
  success : Bool
deriving Repr, DecidableEq

/-- Observable side effects of one request: how many times the builder was
fetched, the verifier ran, and the settlement executor was invoked; the
CallOutcomes recorded; the queue entries written; and the new
`subscriptionCount` values written back to the token row. -/
structure Trace where
  forwardCalls : Nat := 0
  verifyCalls : Nat := 0
  settleCalls : Nat := 0
  metrics : List MetricsRecord := []
  queueEntries : List QueueEntry := []
  counterWrites : List Nat := []
deriving Repr, DecidableEq

/-- CAIP-2 network string `eip155:84532` (Base Sepolia), the value of
`eip155:` interpolated with `baseSepolia.id`. -/
def networkString : String := "eip155:84532"

/-- Failure-metrics record: `recordApiCall(tokenEntry.id, apiSlug, "0",
false, latency)` guarded on the sink being configured. -/
def failMetrics (env : ProxyEnv) (tokenId apiSlug : String) :
    List MetricsRecord :=
  if env.metricsConfigured then [⟨tokenId, apiSlug, "0", false⟩] else []

/-- STEP 4 of the source: guarded on `userRequestService && paymentData`,
extracts the payer address, re-reads the token row, writes one queue entry
carrying `current + 1` as `globalRequestNumber`, then writes
`subscriptionCount := current + 1`.  Any throw is caught and swallowed, so
a throw at the counter write leaves the queue entry already written.
Returns (queue entries written, counter values written). -/
def updateQueueStep (env : ProxyEnv) (tokenId apiFee : String) :
    List QueueEntry × List Nat :=
  if env.userRequestConfigured && env.paymentHeader.isSome then
    match extractUserAddressFromPayment env.decodedPayment with
    | none => ([], [])
    | some user =>
      if env.dynamoConfigured then
        match env.recordStep with
        | RecordStep.getItemThrows => ([], [])
        | step =>
          match env.tokenDBCount with
          | none => ([], [])
          | some current =>
            match step with
            | RecordStep.createThrows => ([], [])
            | RecordStep.putThrows =>
              ([⟨tokenId, user, current + 1, apiFee⟩], [])
            | _ =>
              ([⟨tokenId, user, current + 1, apiFee⟩], [current + 1])
      else ([], [])
  else ([], [])

/-- STEP 5 of the source: the success response, relaying the builder status
and parsed data with payment metadata (`payment.charged : true`,
`payment.status : "paid"`), emitted whether or not a settlement actually
ran. -/
def successResponse (t : IAOTokenEntry) (api : ApiEntry)
    (serverSlug apiSlug : String) (status : Nat) (parsedData : String) :
    HttpResponse :=
  { status := status,
    body := {
      data := some parsedData,
      x402Version := some 2,
      payment := some { status := "paid", tokenAddress := t.id,
                        paymentToken := t.paymentToken, charged := true },
      proxy := some { serverSlug := serverSlug, apiSlug := apiSlug,
                      apiName := api.name } } }

/-- STEP 3 and onward of the source, entered only after a 2xx builder
response: when a thirdweb client and a payment header are present, the
settlement executor runs; on failure or exception the upstream data is
relayed with HTTP 500 and `charged:false` and nothing is recorded; on
success one success CallOutcome is recorded and the queue step runs.
Without client or header, settlement is skipped and the success response
is returned directly. -/
def settleAndRespond (env : ProxyEnv) (t : IAOTokenEntry) (api : ApiEntry)
    (serverSlug apiSlug : String) (verified : Nat) (status : Nat)
    (parsedData : String) : HttpResponse × Trace :=
  if env.thirdwebClient && env.paymentHeader.isSome then
    match env.settle with
    | SettleOutcome.fail err =>
      ({ status := 500,
         body := {
           error := some "Payment execution failed",
           message := some
             "Builder returned data successfully, but payment could not be executed.",
           x402Version := some 2,
           paymentError := some err,
           data := some parsedData,
           serverSlug := some serverSlug,
           apiSlug := some apiSlug,
           charged := some false } },
       { forwardCalls := 1, verifyCalls := verified, settleCalls := 1 })
    | SettleOutcome.thrown _ =>
      ({ status := 500,
         body := {
           error := some "Payment processing error",
           message := some
             "Builder returned data successfully, but payment processing failed.",
           x402Version := some 2,
           data := some parsedData,
           serverSlug := some serverSlug,
           apiSlug := some apiSlug,
           charged := some false } },
       { forwardCalls := 1, verifyCalls := verified, settleCalls := 1 })
    | SettleOutcome.ok _ =>
      let qw := updateQueueStep env t.id api.fee
      (successResponse t api serverSlug apiSlug status parsedData,
       { forwardCalls := 1, verifyCalls := verified, settleCalls := 1,
         metrics := if env.metricsConfigured
           then [⟨t.id, apiSlug, api.fee, true⟩] else [],
         queueEntries := qw.1,
         counterWrites := qw.2 })
  else
    (successResponse t api serverSlug apiSlug status parsedData,
     { forwardCalls := 1, verifyCalls := verified })

/-- STEP 1 and 2 of the source: the builder fetch with its three outcomes.
Timeout gives 504, a network/forwarding error gives 502, a non-2xx status
is passed through with the upstream body; each of those is terminal with
`charged:false` and one failure CallOutcome.  A 2xx response proceeds to
settlement. -/
def forwardPhase (env : ProxyEnv) (t : IAOTokenEntry) (api : ApiEntry)
    (serverSlug apiSlug : String) (verified : Nat) :
    HttpResponse × Trace :=
  match env.builder with
  | BuilderOutcome.timeout =>
    ({ status := 504,
       body := {
         error := some "Builder endpoint timeout",
         message := some
           "The builder endpoint did not respond within 60 seconds. You have NOT been charged.",
         x402Version := some 2,
         serverSlug := some serverSlug,
         apiSlug := some apiSlug,
         apiName := some api.name,
         charged := some false } },
     { forwardCalls := 1, verifyCalls := verified,
       metrics := failMetrics env t.id apiSlug })
  | BuilderOutcome.networkError =>
    ({ status := 502,
       body := {
         error := some "Builder endpoint error",
         message := some
           "Failed to fetch from builder endpoint. You have NOT been charged.",
         x402Version := some 2,
         serverSlug := some serverSlug,
         apiSlug := some apiSlug,
         apiName := some api.name,
         charged := some false } },
     { forwardCalls := 1, verifyCalls := verified,
       metrics := failMetrics env t.id apiSlug })
  | BuilderOutcome.response status parsedData =>
    if 200 ≤ status ∧ status < 300 then
      settleAndRespond env t api serverSlug apiSlug verified status parsedData
    else
      ({ status := status,
         body := {
           error := some "Builder endpoint returned error",
           message := some
             "The API returned an error. You have NOT been charged.",
           x402Version := some 2,
           builderStatus := some status,
           data := some parsedData,
           serverSlug := some serverSlug,
           apiSlug := some apiSlug,
           apiName := some api.name,
           charged := some false } },
       { forwardCalls := 1, verifyCalls := verified,
         metrics := failMetrics env t.id apiSlug })

/-- Source `handleApiProxyRequest`: resolve the server, resolve the API
(404 with the available slugs otherwise), then — only when the thirdweb
client is configured — require a payment header (402 with payment
requirements) and verify it (402 with the reason on rejection), then
forward, settle, and respond.  The outer catch-all of the source (500,
`charged:false`) is not modelled: every modelled operation that can throw
is wrapped in an inner handler the model already accounts for. -/
def handleApiProxyRequest (env : ProxyEnv) (registry : List IAOTokenEntry)
    (serverSlug apiSlug : String) : HttpResponse × Trace :=
  match getIAOTokenEntryBySlug env.dynamoConfigured registry serverSlug with
  | none =>
    ({ status := 404,
       body := {
         error := some "Server not found",
         message := some ("No server registered with slug \""
           ++ serverSlug ++ "\"") } },
     {})
  | some tokenEntry =>
    match getApiFromTokenBySlug tokenEntry apiSlug with
    | none =>
      ({ status := 404,
         body := {
           error := some "API not found",
           message := some ("No API found with slug \"" ++ apiSlug
             ++ "\" in server \"" ++ serverSlug ++ "\""),
           availableApis :=
             some (tokenEntry.apis.map (fun a => (a.slug, a.name))) } },
       {})
    | some api =>
      if env.thirdwebClient then
        match env.paymentHeader with
        | none =>
          ({ status := 402,
             body := {
               error := some "Payment required",
               message := some
                 "This endpoint requires payment. Please provide PAYMENT-SIGNATURE header (x402 V2).",
               x402Version := some 2,
               accepts := some [{ scheme := "exact",
                                  network := networkString,
                                  payTo := env.facilitatorAddress,
                                  asset := tokenEntry.paymentToken,
                                  maxAmountRequired := api.fee }],
               finalRecipient := some tokenEntry.id,
               serverSlug := some serverSlug,
               apiSlug := some apiSlug } },
           {})
        | some _ =>
          match verifyPaymentAuthorization env.decodedPayment
              env.facilitatorAddress api.fee env.now with
          | VerifyResult.invalid err =>
            ({ status := 402,
               body := {
                 error := some "Invalid payment authorization",
                 message := some err,
                 x402Version := some 2,
                 accepts := some [{ scheme := "exact",
                                    network := networkString,
                                    payTo := tokenEntry.id,
                                    asset := tokenEntry.paymentToken,
                                    maxAmountRequired := api.fee }] } },
             { verifyCalls := 1 })
          | VerifyResult.valid _ =>
            forwardPhase env tokenEntry api serverSlug apiSlug 1
      else
        forwardPhase env tokenEntry api serverSlug apiSlug 0

/-- The route `GET /api/:serverSlug/:apiSlug`: both path parameters are
lowercased before the handler runs. -/
def proxyRoute (env : ProxyEnv) (registry : List IAOTokenEntry)
    (serverSlug apiSlug : String) : HttpResponse × Trace :=
  handleApiProxyRequest env registry (jsToLower serverSlug) (jsToLower apiSlug)

/-- The route-resolution composition the proxy route performs: lowercase
both parameters, look the server up by slug, then the API by slug. -/
def resolveProxyRoute (dynamoConfigured : Bool)
    (registry : List IAOTokenEntry) (serverSlug apiSlug : String) :
    Option (IAOTokenEntry × ApiEntry) :=
  match getIAOTokenEntryBySlug dynamoConfigured registry
      (jsToLower serverSlug) with
  | none => none
  | some t =>
    match getApiFromTokenBySlug t (jsToLower apiSlug) with
    | none => none
    | some api => some (t, api)

/-- How many `charged` flags a body carries: the top-level `charged`
boolean of the failure bodies plus the `payment.charged` boolean of the
success body. -/
def ResponseBody.chargedCount (b : ResponseBody) : Nat :=
  (if b.charged.isSome then 1 else 0) + (if b.payment.isSome then 1 else 0)

/-- The value of the charged flag a body carries, if any. -/
def ResponseBody.chargedValue (b : ResponseBody) : Option Bool :=
  match b.charged with
  | some v => some v
  | none => b.payment.map (fun p => p.charged)

/-! Fragments of the other endpoints touched by the confidentiality claim:
`sanitizeApiForPublic`, the duplicate-URL check of `POST /api/register`,
and the API listing of `GET /api/metrics/:serverSlug`. -/

/-- Public projection of an `ApiEntry` (source `sanitizeApiForPublic`): the
`apiUrl` field is dropped, everything else is kept. -/
structure PublicApiEntry where
  index : Nat
  slug : String
  name : String
  fee : String
deriving Repr, DecidableEq

def sanitizeApiForPublic (api : ApiEntry) : PublicApiEntry :=
  { index := api.index, slug := api.slug, name := api.name, fee := api.fee }

def sanitizeApisForPublic (apis : List ApiEntry) : List PublicApiEntry :=
  apis.map sanitizeApiForPublic

/-- Source `dynamoDBService.checkApiUrlsDuplicate`: scans every registered
token and collects `(api.apiUrl, token.slug, token.id)` for each stored API
whose URL occurs in the submitted list. -/
def checkApiUrlsDuplicate (registry : List IAOTokenEntry)
    (apiUrls : List String) : List (String × String × String) :=
  registry.foldl (fun acc token =>
    acc ++ (token.apis.filter (fun api => apiUrls.contains api.apiUrl)).map
      (fun api => (api.apiUrl, token.slug, token.id))) []

/-- The 409 body of the `POST /api/register` duplicate-URL branch. -/
structure RegisterDuplicatesBody where
  error : String
  message : String
  duplicates : List (String × String)
deriving Repr, DecidableEq

/-- The duplicate-URL guard of `POST /api/register` (both validation and
registration mode): when any submitted URL is already registered, a 409
response is returned whose `message` lists the duplicate URLs and whose
`duplicates` array carries `(url, registeredOn)` pairs taken from the
stored records.  `none` means the guard passes. -/
def registerDuplicateResponse (registry : List IAOTokenEntry)
    (apiUrls : List String) : Option (Nat × RegisterDuplicatesBody) :=
  let dups := checkApiUrlsDuplicate registry apiUrls
  if dups.isEmpty then none
  else
    some (409,
      { error := "Duplicate API URL(s)",
        message := "The following API endpoint(s) are already registered: "
          ++ String.intercalate ", " (dups.map (fun d => d.1)),
        duplicates := dups.map (fun d => (d.1, d.2.1)) })

/-- One entry of the `apisWithTokenAmounts` array in the 200 body of
`GET /api/metrics/:serverSlug`: the full stored `ApiEntry` spread verbatim
plus the computed `tokensPerCall`. -/
structure ApiWithTokenAmount where
  index : Nat
  slug : String
  name : String
  apiUrl : String
  fee : String
  tokensPerCall : Option String
deriving Repr, DecidableEq

/-- The slice of `GET /api/metrics/:serverSlug` the confidentiality claim
touches: the route lowercases the slug and resolves the server; a missing
server yields a 404 `(error, message)` body carrying no API data (modelled
as `none`); otherwise the 200 body carries `apisWithTokenAmounts`, built
by spreading each stored `ApiEntry` — `apiUrl` included — and attaching
`tokensPerCall` (the price-dependent computation, `null` when the on-chain
price lookup is unavailable, passed in per API). -/
def serverMetricsApisResponse (dynamoConfigured : Bool)
    (registry : List IAOTokenEntry) (serverSlug : String)
    (tokensPerCall : ApiEntry → Option String) :
    Option (Nat × List ApiWithTokenAmount) :=
  match getIAOTokenEntryBySlug dynamoConfigured registry
      (jsToLower serverSlug) with
  | none => none
  | some t =>
    some (200, t.apis.map (fun api =>
      { index := api.index, slug := api.slug, name := api.name,
        apiUrl := api.apiUrl, fee := api.fee,
        tokensPerCall := tokensPerCall api }))

/-! String atoms of a proxy response, and the set of atoms the pipeline is
permitted to draw from — defined without ever reading `ApiEntry.apiUrl`,
so containment of response atoms in the permitted set is a flow statement:
no proxy response ever carries a stored upstream URL. -/

def optAtoms : Option String → List String
  | some s => [s]
  | none => []

def AcceptsEntry.atoms (e : AcceptsEntry) : List String :=
  [e.scheme, e.network, e.payTo, e.asset, e.maxAmountRequired]

def PaymentInfo.atoms (p : PaymentInfo) : List String :=
  [p.status, p.tokenAddress, p.paymentToken]

def ProxyInfo.atoms (p : ProxyInfo) : List String :=
  [p.serverSlug, p.apiSlug, p.apiName]

/-- All string values appearing anywhere in a response body. -/
def ResponseBody.atoms (b : ResponseBody) : List String :=
  optAtoms b.error ++ optAtoms b.message
  ++ (match b.availableApis with
      | some l => l.map Prod.fst ++ l.map Prod.snd
      | none => [])
  ++ (match b.accepts with
      | some l => l.foldr (fun e acc => AcceptsEntry.atoms e ++ acc) []
      | none => [])
  ++ optAtoms b.finalRecipient ++ optAtoms b.serverSlug ++ optAtoms b.apiSlug
  ++ optAtoms b.apiName ++ optAtoms b.data ++ optAtoms b.paymentError
  ++ (match b.payment with | some p => PaymentInfo.atoms p | none => [])
  ++ (match b.proxy with | some p => ProxyInfo.atoms p | none => [])

def builderDataAtoms : BuilderOutcome → List String
  | BuilderOutcome.response _ d => [d]
  | _ => []

def settleErrAtoms : SettleOutcome → List String
  | SettleOutcome.fail e => [e]
  | _ => []

/-- The verifier rejection message, when the verifier would reject: built
from the decoded payment, the facilitator address and the expected fee
string — never from an upstream URL. -/
def verifyErrAtoms (env : ProxyEnv) (expectedAmount : String) :
    List String :=
  match verifyPaymentAuthorization env.decodedPayment env.facilitatorAddress
      expectedAmount env.now with
  | VerifyResult.invalid e => [e]
  | VerifyResult.valid _ => []

/-- The fixed strings of the handler plus the two (lowercased) path
parameters. -/
def constAtoms (serverSlug apiSlug : String) : List String :=
  ["Server not found",
   "No server registered with slug \"" ++ serverSlug ++ "\"",
   "API not found",
   "No API found with slug \"" ++ apiSlug ++ "\" in server \""
     ++ serverSlug ++ "\"",
   "Payment required",
   "This endpoint requires payment. Please provide PAYMENT-SIGNATURE header (x402 V2).",
   "Invalid payment authorization",
   "exact", networkString,
   "Builder endpoint timeout",
   "The builder endpoint did not respond within 60 seconds. You have NOT been charged.",
   "Builder endpoint error",
   "Failed to fetch from builder endpoint. You have NOT been charged.",
   "Builder endpoint returned error",
   "The API returned an error. You have NOT been charged.",
   "Payment execution failed",
   "Builder returned data successfully, but payment could not be executed.",
   "Payment processing error",
   "Builder returned data successfully, but payment processing failed.",
   "paid",
   serverSlug, apiSlug]

/-- The non-URL fields of a token a response may echo. -/
def tokenAtoms (t : IAOTokenEntry) : List String :=
  [t.id, t.paymentToken] ++ t.apis.map ApiEntry.slug
    ++ t.apis.map ApiEntry.name

/-- Every string the pipeline is allowed to place in a response: constants,
path parameters, the facilitator address, the upstream payload, settlement
and verifier error messages, and the token/API fields other than `apiUrl`.
No clause of this definition reads `ApiEntry.apiUrl`. -/
def permittedAtoms (env : ProxyEnv) (registry : List IAOTokenEntry)
    (serverSlug apiSlug : String) : List String :=
  constAtoms serverSlug apiSlug
  ++ [env.facilitatorAddress]
  ++ builderDataAtoms env.builder
  ++ settleErrAtoms env.settle
  ++ (match getIAOTokenEntryBySlug env.dynamoConfigured registry
        serverSlug with
      | none => []
      | some t =>
        tokenAtoms t
        ++ (match getApiFromTokenBySlug t apiSlug with
            | none => []
            | some api => [api.fee, api.name] ++ verifyErrAtoms env api.fee))

/-! Concrete sample values used by witnesses and counterexamples. -/

def sampleApi : ApiEntry :=
  { index := 0, slug := "pool-snapshot", name := "Pool Snapshot",
    apiUrl := "https://secret.example/data", fee := "10000" }

def sampleToken : IAOTokenEntry :=
  { id := "0xtoken", slug := "magpie", builder := "0xbuilder",
    name := "Magpie", symbol := "MGP", paymentToken := "0xusdc",
    apis := [sampleApi] }

def sampleRegistry : List IAOTokenEntry := [sampleToken]

def sampleAuth : Authorization :=
  { toAddr := "0xfac", value := "10000", validAfter := 0,
    validBefore := 100, fromAddr := "0xuser" }

def sampleProof : PaymentProof :=
  { authorization := some sampleAuth, signature := some "sig" }

def sampleEnvOk : ProxyEnv :=
  { thirdwebClient := true, facilitatorAddress := "0xfac",
    paymentHeader := some "hdr", decodedPayment := some sampleProof,
    now := 50, builder := BuilderOutcome.response 200 "tvl42",
    settle := SettleOutcome.ok (some "0xtx"), metricsConfigured := true,
    userRequestConfigured := true, dynamoConfigured := true,
    tokenDBCount := some 7, recordStep := RecordStep.ok }

/-! Claim theorems. -/

/-- Claim C3: the authorization validator compares the authorization amount
to the expected fee by exact (string) equality.  For every fee `f`, once
the earlier structural checks pass, an authorization whose amount renders
`f + 1` or `f - 1` is rejected with the amount-mismatch reason, and an
authorization whose amount renders exactly `f` passes the amount check and
proceeds to the timing check. -/
theorem c3_amount_exact_equality (f : Nat) (auth : Authorization)
    (sig payee : String) (now : Int) (hsig : sig ≠ "")
    (hto : jsToLower auth.toAddr = jsToLower payee) :
    (auth.value = Nat.repr (f + 1) ∨ 1 ≤ f ∧ auth.value = Nat.repr (f - 1) →
      verifyPaymentAuthorization (some ⟨some auth, some sig⟩) payee
          (Nat.repr f) now
        = VerifyResult.invalid ("Payment amount mismatch: expected "
            ++ Nat.repr f ++ ", got " ++ auth.value))
    ∧ (auth.value = Nat.repr f →
      verifyPaymentAuthorization (some ⟨some auth, some sig⟩) payee
          (Nat.repr f) now
        = if now < auth.validAfter then
            VerifyResult.invalid "Payment authorization not yet valid"
          else if now > auth.validBefore then
            VerifyResult.invalid "Payment authorization expired"
          else VerifyResult.valid (jsToLower auth.fromAddr)) := by
  constructor
  · intro hv
    have hne : auth.value ≠ Nat.repr f := by
      rcases hv with h | ⟨hf, h⟩
      · rw [h]; exact nat_repr_succ_ne f
      · rw [h]; exact nat_repr_pred_ne f hf
    simp only [verifyPaymentAuthorization]
    rw [if_neg hsig, if_neg (not_not_intro hto), if_pos hne]
  · intro hv
    simp only [verifyPaymentAuthorization]
    rw [if_neg hsig, if_neg (not_not_intro hto), if_neg (not_not_intro hv)]

def witnessAuthPlus : Authorization :=
  { toAddr := "0xfac", value := "10001", validAfter := 0,
    validBefore := 100, fromAddr := "0xuser" }

theorem c3_witness :
    verifyPaymentAuthorization (some ⟨some witnessAuthPlus, some "sig"⟩)
        "0xfac" (Nat.repr 10000) 50
      = VerifyResult.invalid ("Payment amount mismatch: expected "
          ++ Nat.repr 10000 ++ ", got " ++ witnessAuthPlus.value) :=
  (c3_amount_exact_equality 10000 witnessAuthPlus "sig" "0xfac" 50
    (by decide) rfl).1 (Or.inl (by decide))

/-- Authorization with an inverted validity window (`validBefore <
validAfter`), exhibiting the precedence of the two timing checks. -/
def invertedAuth : Authorization :=
  { toAddr := "0xfac", value := "10000", validAfter := 10,
    validBefore := 5, fromAddr := "0xuser" }

/-- Claim C4 counterexample: at `now = 7` this authorization has
`validBefore < now` (5 < 7), yet the validator rejects it as not-yet-valid
— not as expired — because the `now < validAfter` check runs first.  The
claim says every authorization with `validBefore < now` is rejected as
expired. -/
theorem c4_counterexample :
    invertedAuth.validBefore < 7
    ∧ verifyPaymentAuthorization (some ⟨some invertedAuth, some "sig"⟩)
        "0xfac" "10000" 7
        = VerifyResult.invalid "Payment authorization not yet valid"
    ∧ verifyPaymentAuthorization (some ⟨some invertedAuth, some "sig"⟩)
        "0xfac" "10000" 7
        ≠ VerifyResult.invalid "Payment authorization expired" := by
  exact ⟨by decide, rfl, by decide⟩

/-- Claim C4 (amended): the timing window is boundary-inclusive.  Once the
structural checks pass: `now < validAfter` is rejected as not yet valid;
`validBefore < now` is rejected as expired provided `validAfter ≤ now`
(the not-yet-valid check takes precedence on an inverted window); and
`validAfter ≤ now ≤ validBefore` — including both boundaries — passes. -/
theorem c4_time_window_boundaries (auth : Authorization)
    (sig payee : String) (now : Int) (hsig : sig ≠ "")
    (hto : jsToLower auth.toAddr = jsToLower payee) :
    (now < auth.validAfter →
      verifyPaymentAuthorization (some ⟨some auth, some sig⟩) payee
          auth.value now
        = VerifyResult.invalid "Payment authorization not yet valid")
    ∧ (auth.validAfter ≤ now → auth.validBefore < now →
      verifyPaymentAuthorization (some ⟨some auth, some sig⟩) payee
          auth.value now
        = VerifyResult.invalid "Payment authorization expired")
    ∧ (auth.validAfter ≤ now → now ≤ auth.validBefore →
      verifyPaymentAuthorization (some ⟨some auth, some sig⟩) payee
          auth.value now
        = VerifyResult.valid (jsToLower auth.fromAddr)) := by
  refine ⟨?_, ?_, ?_⟩
  · intro h
    simp only [verifyPaymentAuthorization]
    rw [if_neg hsig, if_neg (not_not_intro hto),
      if_neg (not_not_intro rfl), if_pos h]
  · intro h1 h2
    simp only [verifyPaymentAuthorization]
    rw [if_neg hsig, if_neg (not_not_intro hto),
      if_neg (not_not_intro rfl), if_neg (by omega), if_pos (by omega)]
  · intro h1 h2
    simp only [verifyPaymentAuthorization]
    rw [if_neg hsig, if_neg (not_not_intro hto),
      if_neg (not_not_intro rfl), if_neg (by omega), if_neg (by omega)]

theorem c4_witness :
    verifyPaymentAuthorization (some ⟨some sampleAuth, some "sig"⟩)
        "0xfac" sampleAuth.value 100
      = VerifyResult.valid (jsToLower sampleAuth.fromAddr)
    ∧ verifyPaymentAuthorization (some ⟨some sampleAuth, some "sig"⟩)
        "0xfac" sampleAuth.value 101
      = VerifyResult.invalid "Payment authorization expired"
    ∧ verifyPaymentAuthorization (some ⟨some sampleAuth, some "sig"⟩)
        "0xfac" sampleAuth.value (-1)
      = VerifyResult.invalid "Payment authorization not yet valid" :=
  ⟨(c4_time_window_boundaries sampleAuth "sig" "0xfac" 100
      (by decide) rfl).2.2 (by decide) (by decide),
   (c4_time_window_boundaries sampleAuth "sig" "0xfac" 101
      (by decide) rfl).2.1 (by decide) (by decide),
   (c4_time_window_boundaries sampleAuth "sig" "0xfac" (-1)
      (by decide) rfl).1 (by decide)⟩

/-- Claim C10: proxy route resolution is case-insensitive in both slugs —
any casing variants of the (server slug, API slug) pair resolve exactly
like the corresponding pair (in particular like the all-lowercase pair),
because the route lowercases both path parameters, the server lookup
lowercases its queried slug, and the API lookup lowercases the API slug
before comparing. -/
theorem c10_case_insensitive_resolution (cfg : Bool) (env : ProxyEnv)
    (registry : List IAOTokenEntry) (v1 v2 s1 s2 : String)
    (h1 : jsToLower v1 = jsToLower s1) (h2 : jsToLower v2 = jsToLower s2) :
    resolveProxyRoute cfg registry v1 v2 = resolveProxyRoute cfg registry s1 s2
    ∧ resolveProxyRoute cfg registry v1 v2
        = resolveProxyRoute cfg registry (jsToLower v1) (jsToLower v2)
    ∧ proxyRoute env registry v1 v2 = proxyRoute env registry s1 s2 := by
  refine ⟨?_, ?_, ?_⟩
  · simp only [resolveProxyRoute, getIAOTokenEntryBySlug, getItemBySlug,
      getApiFromTokenBySlug, h1, h2]
  · simp only [resolveProxyRoute, getIAOTokenEntryBySlug, getItemBySlug,
      getApiFromTokenBySlug, jsToLower_idem]
  · simp only [proxyRoute, h1, h2]

theorem c10_witness :
    resolveProxyRoute true sampleRegistry "MAGpie" "Pool-Snapshot"
      = resolveProxyRoute true sampleRegistry "MAGPIE" "pool-snapshot"
    ∧ resolveProxyRoute true sampleRegistry "MAGpie" "Pool-Snapshot"
      = resolveProxyRoute true sampleRegistry (jsToLower "MAGpie")
          (jsToLower "Pool-Snapshot")
    ∧ proxyRoute sampleEnvOk sampleRegistry "MAGpie" "Pool-Snapshot"
      = proxyRoute sampleEnvOk sampleRegistry "MAGPIE" "pool-snapshot" :=
  c10_case_insensitive_resolution true sampleEnvOk sampleRegistry
    "MAGpie" "Pool-Snapshot" "MAGPIE" "pool-snapshot" (by decide) (by decide)

/-- Helper: whenever the builder outcome is not a success, the forward
phase responds with a `charged:false` flag, invokes no settlement, and
records failure metrics only. -/
theorem forwardPhase_fail (env : ProxyEnv) (t : IAOTokenEntry)
    (api : ApiEntry) (serverSlug apiSlug : String) (verified : Nat)
    (hFail : env.builder.isSuccess = false) :
    ResponseBody.chargedValue
        (forwardPhase env t api serverSlug apiSlug verified).1.body
      = some false
    ∧ (forwardPhase env t api serverSlug apiSlug verified).2.settleCalls
      = 0 := by
  unfold forwardPhase
  cases hb : env.builder with
  | timeout => exact ⟨rfl, rfl⟩
  | networkError => exact ⟨rfl, rfl⟩
  | response st d =>
    have hnot : ¬(200 ≤ st ∧ st < 300) := by
      rintro ⟨hl, hr⟩
      rw [hb] at hFail
      simp [BuilderOutcome.isSuccess, hl, hr] at hFail
    dsimp only
    rw [if_neg hnot]
    exact ⟨rfl, rfl⟩

/-- Claim C1 counterexample: the RouteNotFound 404 response and both 402
responses (PaymentRequired and AuthInvalid) carry no `charged` flag at
all, refuting the claim that every terminal response carries exactly
one. -/
theorem c1_counterexample :
    (handleApiProxyRequest sampleEnvOk [] "magpie" "pool-snapshot").1.status
      = 404
    ∧ ResponseBody.chargedCount
        (handleApiProxyRequest sampleEnvOk [] "magpie"
          "pool-snapshot").1.body = 0
    ∧ (handleApiProxyRequest { sampleEnvOk with paymentHeader := none }
        sampleRegistry "magpie" "pool-snapshot").1.status = 402
    ∧ ResponseBody.chargedCount
        (handleApiProxyRequest { sampleEnvOk with paymentHeader := none }
          sampleRegistry "magpie" "pool-snapshot").1.body = 0
    ∧ (handleApiProxyRequest { sampleEnvOk with decodedPayment := none }
        sampleRegistry "magpie" "pool-snapshot").1.status = 402
    ∧ ResponseBody.chargedCount
        (handleApiProxyRequest { sampleEnvOk with decodedPayment := none }
          sampleRegistry "magpie" "pool-snapshot").1.body = 0 :=
  ⟨rfl, rfl, rfl, rfl, rfl, rfl⟩

/-- Claim C1 (amended): a terminal response carries exactly one `charged`
flag (the top-level `charged` of the failure bodies or `payment.charged`
of the success body) exactly when the request was forwarded upstream; the
RouteNotFound, PaymentRequired and AuthInvalid responses, produced before
forwarding, carry none. -/
theorem c1_charged_iff_forwarded (env : ProxyEnv)
    (registry : List IAOTokenEntry) (serverSlug apiSlug : String) :
    ResponseBody.chargedCount
        (handleApiProxyRequest env registry serverSlug apiSlug).1.body
      = min (handleApiProxyRequest env registry serverSlug apiSlug).2.forwardCalls
          1 := by
  unfold handleApiProxyRequest forwardPhase settleAndRespond
  repeat' split
  all_goals rfl

/-- Claim C2: for every upstream outcome that is not a success (timeout,
network error, or an HTTP status outside [200,300)), once the request
reaches the forwarding step the final response has `charged:false` and the
settlement executor is never invoked. -/
theorem c2_no_charge_without_upstream_success (env : ProxyEnv)
    (registry : List IAOTokenEntry) (serverSlug apiSlug : String)
    (t : IAOTokenEntry) (api : ApiEntry)
    (hT : getIAOTokenEntryBySlug env.dynamoConfigured registry serverSlug
      = some t)
    (hA : getApiFromTokenBySlug t apiSlug = some api)
    (hAuth : env.thirdwebClient = true →
      env.paymentHeader.isSome = true
      ∧ ∃ u, verifyPaymentAuthorization env.decodedPayment
          env.facilitatorAddress api.fee env.now = VerifyResult.valid u)
    (hFail : env.builder.isSuccess = false) :
    ResponseBody.chargedValue
        (handleApiProxyRequest env registry serverSlug apiSlug).1.body
      = some false
    ∧ (handleApiProxyRequest env registry serverSlug apiSlug).2.settleCalls
      = 0 := by
  unfold handleApiProxyRequest
  simp only [hT, hA]
  cases htw : env.thirdwebClient with
  | false =>
    simp only [Bool.false_eq_true, if_false]
    exact forwardPhase_fail env t api serverSlug apiSlug 0 hFail
  | true =>
    obtain ⟨hps, u, hv⟩ := hAuth htw
    cases hph : env.paymentHeader with
    | none => rw [hph] at hps; simp at hps
    | some pd =>
      simp only [eq_self_iff_true, if_true, hph, hv]
      exact forwardPhase_fail env t api serverSlug apiSlug 1 hFail

theorem c2_witness :
    ResponseBody.chargedValue
        (handleApiProxyRequest
          { sampleEnvOk with builder := BuilderOutcome.response 500 "err" }
          sampleRegistry "magpie" "pool-snapshot").1.body = some false
    ∧ (handleApiProxyRequest
        { sampleEnvOk with builder := BuilderOutcome.response 500 "err" }
        sampleRegistry "magpie" "pool-snapshot").2.settleCalls = 0 :=
  c2_no_charge_without_upstream_success
    { sampleEnvOk with builder := BuilderOutcome.response 500 "err" }
    sampleRegistry "magpie" "pool-snapshot" sampleToken sampleApi
    (by decide) (by decide)
    (fun _ => ⟨rfl, "0xuser", rfl⟩) (by decide)

/-- Claim C9: with no facilitator client configured, a request without a
payment header is not rejected with 402 — verification and settlement are
skipped entirely, the request is still forwarded, and on upstream success
the response nevertheless reports `payment.charged : true` and
`payment.status : "paid"`. -/
theorem c9_no_facilitator_still_reports_paid (env : ProxyEnv)
    (registry : List IAOTokenEntry) (serverSlug apiSlug : String)
    (t : IAOTokenEntry) (api : ApiEntry) (st : Nat) (d : String)
    (hT : getIAOTokenEntryBySlug env.dynamoConfigured registry serverSlug
      = some t)
    (hA : getApiFromTokenBySlug t apiSlug = some api)
    (hTW : env.thirdwebClient = false)
    (_hPH : env.paymentHeader = none)
    (hB : env.builder = BuilderOutcome.response st d)
    (h2xx : 200 ≤ st ∧ st < 300) :
    (handleApiProxyRequest env registry serverSlug apiSlug).1.status = st
    ∧ (handleApiProxyRequest env registry serverSlug apiSlug).1.status ≠ 402
    ∧ (handleApiProxyRequest env registry serverSlug apiSlug).1.body.payment
      = some { status := "paid", tokenAddress := t.id,
               paymentToken := t.paymentToken, charged := true }
    ∧ (handleApiProxyRequest env registry serverSlug apiSlug).1.body.data
      = some d
    ∧ (handleApiProxyRequest env registry serverSlug apiSlug).2.verifyCalls
      = 0
    ∧ (handleApiProxyRequest env registry serverSlug apiSlug).2.settleCalls
      = 0
    ∧ (handleApiProxyRequest env registry serverSlug apiSlug).2.forwardCalls
      = 1 := by
  unfold handleApiProxyRequest
  simp only [hT, hA, hTW, Bool.false_eq_true, if_false]
  unfold forwardPhase
  simp only [hB]
  rw [if_pos h2xx]
  unfold settleAndRespond
  simp only [hTW, Bool.false_and, Bool.false_eq_true, if_false]
  refine ⟨by trivial, ?_, by trivial, by trivial, by trivial, by trivial,
    by trivial⟩
  show st ≠ 402
  omega

theorem c9_witness :
    (handleApiProxyRequest
        { sampleEnvOk with thirdwebClient := false, paymentHeader := none }
        sampleRegistry "magpie" "pool-snapshot").1.status = 200
    ∧ (handleApiProxyRequest
        { sampleEnvOk with thirdwebClient := false, paymentHeader := none }
        sampleRegistry "magpie" "pool-snapshot").1.status ≠ 402
    ∧ (handleApiProxyRequest
        { sampleEnvOk with thirdwebClient := false, paymentHeader := none }
        sampleRegistry "magpie" "pool-snapshot").1.body.payment
      = some { status := "paid", tokenAddress := sampleToken.id,
               paymentToken := sampleToken.paymentToken, charged := true }
    ∧ (handleApiProxyRequest
        { sampleEnvOk with thirdwebClient := false, paymentHeader := none }
        sampleRegistry "magpie" "pool-snapshot").1.body.data = some "tvl42"
    ∧ (handleApiProxyRequest
        { sampleEnvOk with thirdwebClient := false, paymentHeader := none }
        sampleRegistry "magpie" "pool-snapshot").2.verifyCalls = 0
    ∧ (handleApiProxyRequest
        { sampleEnvOk with thirdwebClient := false, paymentHeader := none }
        sampleRegistry "magpie" "pool-snapshot").2.settleCalls = 0
    ∧ (handleApiProxyRequest
        { sampleEnvOk with thirdwebClient := false, paymentHeader := none }
        sampleRegistry "magpie" "pool-snapshot").2.forwardCalls = 1 :=
  c9_no_facilitator_still_reports_paid
    { sampleEnvOk with thirdwebClient := false, paymentHeader := none }
    sampleRegistry "magpie" "pool-snapshot" sampleToken sampleApi 200 "tvl42"
    (by decide) (by decide) rfl rfl rfl (by omega)

/-- Claim C5: when the settlement executor fails (or throws) after a
successful upstream response, the pipeline returns a terminal HTTP 500
response with `charged:false` that still relays the upstream data, and the
executor was invoked exactly once. -/
theorem c5_settlement_failure_relays_data (env : ProxyEnv)
    (registry : List IAOTokenEntry) (serverSlug apiSlug : String)
    (t : IAOTokenEntry) (api : ApiEntry) (pd : String) (st : Nat)
    (d : String)
    (hT : getIAOTokenEntryBySlug env.dynamoConfigured registry serverSlug
      = some t)
    (hA : getApiFromTokenBySlug t apiSlug = some api)
    (hTW : env.thirdwebClient = true)
    (hPH : env.paymentHeader = some pd)
    (hV : ∃ u, verifyPaymentAuthorization env.decodedPayment
      env.facilitatorAddress api.fee env.now = VerifyResult.valid u)
    (hB : env.builder = BuilderOutcome.response st d)
    (h2xx : 200 ≤ st ∧ st < 300)
    (hS : env.settle.isOk = false) :
    (handleApiProxyRequest env registry serverSlug apiSlug).1.status = 500
    ∧ ResponseBody.chargedValue
        (handleApiProxyRequest env registry serverSlug apiSlug).1.body
      = some false
    ∧ (handleApiProxyRequest env registry serverSlug apiSlug).1.body.data
      = some d
    ∧ (handleApiProxyRequest env registry serverSlug apiSlug).2.settleCalls
      = 1 := by
  obtain ⟨u, hv⟩ := hV
  unfold handleApiProxyRequest
  simp only [hT, hA, hTW, eq_self_iff_true, if_true, hPH, hv]
  unfold forwardPhase
  simp only [hB]
  rw [if_pos h2xx]
  unfold settleAndRespond
  simp only [hTW, hPH, Option.isSome_some, Bool.and_self, eq_self_iff_true,
    if_true]
  cases hs : env.settle with
  | ok tx => rw [hs] at hS; simp [SettleOutcome.isOk] at hS
  | fail err =>
    dsimp only
    exact ⟨by trivial, by trivial, by trivial, by trivial⟩
  | thrown msg =>
    dsimp only
    exact ⟨by trivial, by trivial, by trivial, by trivial⟩

theorem c5_witness :
    (handleApiProxyRequest
        { sampleEnvOk with settle := SettleOutcome.fail "boom" }
        sampleRegistry "magpie" "pool-snapshot").1.status = 500
    ∧ ResponseBody.chargedValue
        (handleApiProxyRequest
          { sampleEnvOk with settle := SettleOutcome.fail "boom" }
          sampleRegistry "magpie" "pool-snapshot").1.body = some false
    ∧ (handleApiProxyRequest
        { sampleEnvOk with settle := SettleOutcome.fail "boom" }
        sampleRegistry "magpie" "pool-snapshot").1.body.data = some "tvl42"
    ∧ (handleApiProxyRequest
        { sampleEnvOk with settle := SettleOutcome.fail "boom" }
        sampleRegistry "magpie" "pool-snapshot").2.settleCalls = 1 :=
  c5_settlement_failure_relays_data
    { sampleEnvOk with settle := SettleOutcome.fail "boom" }
    sampleRegistry "magpie" "pool-snapshot" sampleToken sampleApi "hdr"
    200 "tvl42" (by decide) (by decide) rfl rfl ⟨"0xuser", by decide⟩
    rfl (by omega) rfl

/-- Helper: every run of the pipeline either writes no queue entry and no
counter value at all, or it invoked the settlement executor and the
settlement succeeded. -/
theorem queue_writes_classified (env : ProxyEnv)
    (registry : List IAOTokenEntry) (serverSlug apiSlug : String) :
    ((handleApiProxyRequest env registry serverSlug apiSlug).2.queueEntries
        = []
      ∧ (handleApiProxyRequest env registry serverSlug
          apiSlug).2.counterWrites = [])
    ∨ ((handleApiProxyRequest env registry serverSlug apiSlug).2.settleCalls
        = 1
      ∧ env.settle.isOk = true) := by
  unfold handleApiProxyRequest forwardPhase settleAndRespond
  repeat' split
  all_goals
    first
    | exact Or.inl ⟨rfl, rfl⟩
    | exact Or.inr ⟨rfl, by simp_all [SettleOutcome.isOk]⟩

/-- Claim C6: a queue entry and a counter increment are produced only on a
successfully settled call (first conjunct: any run that did not invoke the
executor exactly once with a successful settlement writes neither), and on
each successfully settled call — when the recording dependencies are
available and do not throw — the counter advances by exactly one, exactly
one queue entry is written, and the sequence number handed to the queue
entry equals the post-increment counter value (second conjunct). -/
theorem c6_counter_and_queue (env : ProxyEnv)
    (registry : List IAOTokenEntry) (serverSlug apiSlug : String) :
    (((handleApiProxyRequest env registry serverSlug apiSlug).2.settleCalls
        = 0 ∨ env.settle.isOk = false) →
      (handleApiProxyRequest env registry serverSlug apiSlug).2.queueEntries
        = []
      ∧ (handleApiProxyRequest env registry serverSlug
          apiSlug).2.counterWrites = [])
    ∧ (∀ (t : IAOTokenEntry) (api : ApiEntry) (pd u : String) (cur : Nat),
      getIAOTokenEntryBySlug env.dynamoConfigured registry serverSlug
        = some t →
      getApiFromTokenBySlug t apiSlug = some api →
      env.thirdwebClient = true →
      env.paymentHeader = some pd →
      (∃ v, verifyPaymentAuthorization env.decodedPayment
        env.facilitatorAddress api.fee env.now = VerifyResult.valid v) →
      env.builder.isSuccess = true →
      env.settle.isOk = true →
      env.userRequestConfigured = true →
      extractUserAddressFromPayment env.decodedPayment = some u →
      env.tokenDBCount = some cur →
      env.recordStep = RecordStep.ok →
      (handleApiProxyRequest env registry serverSlug apiSlug).2.queueEntries
        = [⟨t.id, u, cur + 1, api.fee⟩]
      ∧ (handleApiProxyRequest env registry serverSlug
          apiSlug).2.counterWrites = [cur + 1]) := by
  constructor
  · intro h
    rcases queue_writes_classified env registry serverSlug apiSlug with
      hempty | ⟨h1, h2⟩
    · exact hempty
    · rcases h with h | h
      · rw [h1] at h; exact absurd h (by decide)
      · rw [h2] at h; exact absurd h (by decide)
  · intro t api pd u cur hT hA hTW hPH hV hBS hSO hUR hEx hCur hRS
    obtain ⟨v, hv⟩ := hV
    have hDyn : env.dynamoConfigured = true := by
      by_contra hd
      rw [Bool.not_eq_true] at hd
      unfold getIAOTokenEntryBySlug at hT
      rw [hd] at hT
      simp at hT
    obtain ⟨st, d, hB⟩ : ∃ st d, env.builder = BuilderOutcome.response st d := by
      cases hb : env.builder with
      | timeout => rw [hb] at hBS; simp [BuilderOutcome.isSuccess] at hBS
      | networkError => rw [hb] at hBS; simp [BuilderOutcome.isSuccess] at hBS
      | response st d => exact ⟨st, d, rfl⟩
    have h2xx : 200 ≤ st ∧ st < 300 := by
      rw [hB] at hBS
      simpa [BuilderOutcome.isSuccess] using hBS
    obtain ⟨tx, hSok⟩ : ∃ tx, env.settle = SettleOutcome.ok tx := by
      cases hs : env.settle with
      | ok tx => exact ⟨tx, rfl⟩
      | fail e => rw [hs] at hSO; simp [SettleOutcome.isOk] at hSO
      | thrown m => rw [hs] at hSO; simp [SettleOutcome.isOk] at hSO
    unfold handleApiProxyRequest
    simp only [hT, hA, hTW, eq_self_iff_true, if_true, hPH, hv]
    unfold forwardPhase
    simp only [hB]
    rw [if_pos h2xx]
    unfold settleAndRespond
    simp only [hTW, hPH, Option.isSome_some, Bool.and_self,
      eq_self_iff_true, if_true, hSok]
    unfold updateQueueStep
    simp only [hUR, hPH, Option.isSome_some, Bool.and_self,
      eq_self_iff_true, if_true, hEx, hDyn, hRS, hCur]
    exact ⟨by trivial, by trivial⟩

theorem c6_witness :
    (handleApiProxyRequest sampleEnvOk sampleRegistry "magpie"
        "pool-snapshot").2.queueEntries
      = [⟨sampleToken.id, "0xuser", 8, sampleApi.fee⟩]
    ∧ (handleApiProxyRequest sampleEnvOk sampleRegistry "magpie"
        "pool-snapshot").2.counterWrites = [8] :=
  (c6_counter_and_queue sampleEnvOk sampleRegistry "magpie"
    "pool-snapshot").2 sampleToken sampleApi "hdr" "0xuser" 7
    (by decide) (by decide) rfl rfl ⟨"0xuser", by decide⟩ rfl rfl rfl
    (by decide) rfl rfl

/-- Claim C8 counterexample: a settlement failure after upstream success is
a terminal pipeline state (HTTP 500) in which the settlement executor ran,
the metrics sink is configured — and yet zero CallOutcomes are recorded,
refuting the claim that every terminal state records exactly one. -/
theorem c8_counterexample :
    (handleApiProxyRequest
        { sampleEnvOk with settle := SettleOutcome.fail "boom" }
        sampleRegistry "magpie" "pool-snapshot").2.metrics = []
    ∧ (handleApiProxyRequest
        { sampleEnvOk with settle := SettleOutcome.fail "boom" }
        sampleRegistry "magpie" "pool-snapshot").2.settleCalls = 1
    ∧ (handleApiProxyRequest
        { sampleEnvOk with settle := SettleOutcome.fail "boom" }
        sampleRegistry "magpie" "pool-snapshot").1.status = 500
    ∧ ({ sampleEnvOk with
        settle := SettleOutcome.fail "boom" } : ProxyEnv).metricsConfigured
      = true :=
  ⟨rfl, rfl, rfl, rfl⟩

/-- Claim C8 (amended): with the metrics sink configured, exactly one
CallOutcome is recorded precisely on the forwarded terminal states in
which either the upstream call failed or the payment settled successfully;
no CallOutcome is recorded for the pre-forward terminal states
(RouteNotFound, PaymentRequired, AuthInvalid), for settlement failures, or
for a forwarded success in which no settlement was processed. -/
theorem c8_metrics_characterization (env : ProxyEnv)
    (registry : List IAOTokenEntry) (serverSlug apiSlug : String)
    (hm : env.metricsConfigured = true) :
    (handleApiProxyRequest env registry serverSlug apiSlug).2.metrics.length
      = if (handleApiProxyRequest env registry serverSlug
            apiSlug).2.forwardCalls = 1
           ∧ (env.builder.isSuccess = false
              ∨ env.thirdwebClient = true
                ∧ env.paymentHeader.isSome = true
                ∧ env.settle.isOk = true)
        then 1 else 0 := by
  unfold handleApiProxyRequest forwardPhase settleAndRespond
  repeat' split
  all_goals
    simp_all [failMetrics, BuilderOutcome.isSuccess, SettleOutcome.isOk,
      Bool.and_eq_true, Bool.and_eq_false_iff]

theorem c8_witness :
    (handleApiProxyRequest sampleEnvOk sampleRegistry "magpie"
        "pool-snapshot").2.metrics.length
      = if (handleApiProxyRequest sampleEnvOk sampleRegistry "magpie"
            "pool-snapshot").2.forwardCalls = 1
           ∧ (sampleEnvOk.builder.isSuccess = false
              ∨ sampleEnvOk.thirdwebClient = true
                ∧ sampleEnvOk.paymentHeader.isSome = true
                ∧ sampleEnvOk.settle.isOk = true)
        then 1 else 0 :=
  c8_metrics_characterization sampleEnvOk sampleRegistry "magpie"
    "pool-snapshot" rfl

/-- Claim C7 counterexample: two endpoints of the service emit HTTP
responses containing the raw `apiUrl` of a registered ApiRecord.  The
duplicate-URL 409 response of `POST /api/register` carries it both in its
`message` and in its `duplicates` array, and the 200 response of
`GET /api/metrics/:serverSlug` carries it in every `apisWithTokenAmounts`
entry, which spreads the full stored ApiRecord. -/
theorem c7_counterexample :
    registerDuplicateResponse sampleRegistry ["https://secret.example/data"]
      = some (409,
        { error := "Duplicate API URL(s)",
          message :=
            "The following API endpoint(s) are already registered: https://secret.example/data",
          duplicates := [("https://secret.example/data", "magpie")] })
    ∧ serverMetricsApisResponse true sampleRegistry "magpie" (fun _ => none)
      = some (200,
        [{ index := 0, slug := "pool-snapshot", name := "Pool Snapshot",
           apiUrl := "https://secret.example/data", fee := "10000",
           tokensPerCall := none }])
    ∧ sampleApi.apiUrl = "https://secret.example/data"
    ∧ sampleToken.apis = [sampleApi] :=
  ⟨rfl, rfl, rfl, rfl⟩

theorem map_fst_pairs (l : List ApiEntry) :
    (l.map (fun a => (a.slug, a.name))).map Prod.fst
      = l.map ApiEntry.slug := by
  rw [List.map_map]; rfl

theorem map_snd_pairs (l : List ApiEntry) :
    (l.map (fun a => (a.slug, a.name))).map Prod.snd
      = l.map ApiEntry.name := by
  rw [List.map_map]; rfl

set_option maxHeartbeats 1600000 in
/-- Helper: every string atom of a proxy-pipeline response belongs to the
permitted-atom list, which is built without ever reading
`ApiEntry.apiUrl`. -/
theorem response_atoms_permitted (env : ProxyEnv)
    (registry : List IAOTokenEntry) (serverSlug apiSlug : String) :
    ∀ x ∈ (handleApiProxyRequest env registry serverSlug
        apiSlug).1.body.atoms,
      x ∈ permittedAtoms env registry serverSlug apiSlug := by
  intro x hx
  unfold handleApiProxyRequest forwardPhase settleAndRespond at hx
  unfold permittedAtoms
  repeat' split at hx
  all_goals
    simp_all only [ResponseBody.atoms, optAtoms, AcceptsEntry.atoms,
      PaymentInfo.atoms, ProxyInfo.atoms, constAtoms, tokenAtoms,
      builderDataAtoms, settleErrAtoms, verifyErrAtoms, successResponse,
      map_fst_pairs, map_snd_pairs, List.mem_append, List.mem_cons,
      List.mem_singleton, List.not_mem_nil, List.append_nil,
      List.nil_append, List.cons_append, List.foldr_cons, List.foldr_nil,
      or_false, false_or]
  all_goals itauto

/-- Claim C7 (amended): the proxy pipeline never places a stored upstream
URL in a response — every string in a proxy response is drawn from the
permitted sources (handler constants, path parameters, facilitator
address, upstream payload, verifier and settlement messages, and the
non-URL token/API fields), a list built without reading `ApiEntry.apiUrl`.
Service-wide, however, the invariant fails: at least the duplicate-URL 409
response of `POST /api/register` and the 200 listing of
`GET /api/metrics/:serverSlug` expose registered `apiUrl`s verbatim (see
the counterexample). -/
theorem c7_no_upstream_url_in_proxy_responses (env : ProxyEnv)
    (registry : List IAOTokenEntry) (serverSlug apiSlug : String)
    (u : String)
    (hu : u ∉ permittedAtoms env registry serverSlug apiSlug) :
    u ∉ (handleApiProxyRequest env registry serverSlug
        apiSlug).1.body.atoms :=
  fun hmem =>
    hu (response_atoms_permitted env registry serverSlug apiSlug u hmem)

theorem c7_witness :
    "https://secret.example/data"
      ∉ (handleApiProxyRequest sampleEnvOk sampleRegistry "magpie"
          "pool-snapshot").1.body.atoms
    ∧ sampleApi.apiUrl = "https://secret.example/data" :=
  ⟨c7_no_upstream_url_in_proxy_responses sampleEnvOk sampleRegistry
    "magpie" "pool-snapshot" "https://secret.example/data" (by decide),
   rfl⟩

end IaoProxy
